import Mathlib

/-!
Shallow embedding of the todo_tracker Django backend (src/todo_django/):
the Task model and its transition helpers (tasks/models.py), the task
serializers (tasks/serializers.py), the ownership-scoped view operations
(tasks/views.py, user_account/permissions.py), and the User cooldown and
registration logic (user_account/models.py, user_account/serializers.py).

Conventions: timestamps and calendar dates are integers (seconds for
timestamps, so one day is 86400 seconds; `due_date` values are compared as
integers exactly as Python compares `date` objects).  Nullable columns are
`Option`.  Python exceptions become `Except` errors.  `date.today()` /
`timezone.now()` are threaded in as explicit `today` / `now` arguments.
-/

deriving instance DecidableEq for Except

namespace TodoTracker

/-- Python `s.strip()`: the string without its leading and trailing
whitespace. -/
def pyStrip (s : String) : String :=
  ⟨((s.data.dropWhile Char.isWhitespace).reverse.dropWhile Char.isWhitespace).reverse⟩

/-- A row of the `tasks` table (tasks/models.py, class `Task`).
`completed_at` is a nullable timestamp, `due_date` a nullable date. -/
structure Task where
  id : Nat
  user : Nat
  title : String
  description : String
  status : String
  priority : String
  completed_at : Option Int
  due_date : Option Int
  deriving Repr, DecidableEq

/-- `Task.STATUS_CHOICE` (models.py lines 10-14): a dict mapping each status
key to its display label.  Note the attribute name has no trailing `S`. -/
def STATUS_CHOICE : List (String × String) :=
  [("pending", "Pending"), ("in_process", "In Process"), ("completed", "Completed")]

/-- `Task.PRIORITY_CHOICES` (models.py lines 20-24): a dict mapping each
priority key to its display label. -/
def PRIORITY_CHOICES : List (String × String) :=
  [("low", "Low"), ("medium", "Medium"), ("high", "High")]

/-- Python class-attribute lookup on the `Task` class: the class body defines
exactly the two dicts above.  `getattr` on any other name raises
`AttributeError`; in particular `STATUS_CHOICES` (with an `S`) is absent. -/
def classAttr : String → Option (List (String × String))
  | "STATUS_CHOICE" => some STATUS_CHOICE
  | "PRIORITY_CHOICES" => some PRIORITY_CHOICES
  | _ => none

/-- The Python exceptions the model methods can raise: `AttributeError` from a
failed attribute lookup, and `ValueError(...)` carrying the list of values the
message cites as allowed. -/
inductive PyError where
  | attributeError (name : String)
  | valueError (allowed : List String)
  deriving Repr, DecidableEq

/-- `Task.mark_complete` (models.py lines 57-63): status becomes `completed`
and `completed_at` is stamped with `timezone.now()`. -/
def Task.mark_complete (t : Task) (now : Int) : Task :=
  { t with status := "completed", completed_at := some now }

/-- `Task.mark_incomplete` (models.py lines 65-71): status becomes `pending`
and `completed_at` is cleared. -/
def Task.mark_incomplete (t : Task) : Task :=
  { t with status := "pending", completed_at := none }

/-- `Task.toggle_complete` (models.py lines 73-80). -/
def Task.toggle_complete (t : Task) (now : Int) : Task :=
  if t.status == "completed" then t.mark_incomplete else t.mark_complete now

/-- `Task.is_overdue` (models.py lines 82-91): `if self.due_date and
self.status != 'completed': return self.due_date < date.today()`; a `date`
object is always truthy, `None` is falsy. -/
def Task.is_overdue (t : Task) (today : Int) : Bool :=
  match t.due_date with
  | some d => if t.status != "completed" then decide (d < today) else false
  | none => false

/-- `Task.is_completed` (models.py lines 93-98). -/
def Task.is_completed (t : Task) : Bool :=
  t.status == "completed"

/-- `Task.set_priority` (models.py lines 100-109).  The source computes
`valid_priorities = [choice[0] for choice in self.PRIORITY_CHOICES]`:
iterating a Python dict yields its KEYS, and `choice[0]` is then the first
character of each key, so the list is `["l", "m", "h"]`, not the keys
themselves.  On failure the task is unchanged (the `ValueError` is raised
before any assignment to `self.priority`). -/
def Task.set_priority (t : Task) (priority : String) : Except PyError Task :=
  match classAttr "PRIORITY_CHOICES" with
  | none => .error (.attributeError "PRIORITY_CHOICES")
  | some choices =>
    let valid_priorities := choices.map (fun choice => choice.1.take 1)
    if valid_priorities.contains priority then
      .ok { t with priority := priority }
    else
      .error (.valueError valid_priorities)

/-- `Task.set_status` (models.py lines 111-125).  The first line evaluates
`self.STATUS_CHOICES`, but the class attribute is named `STATUS_CHOICE`
(models.py line 10), so Python raises `AttributeError` before anything else
runs; the branch below the lookup transcribes the rest of the body, which is
unreachable.  (Had the lookup succeeded, `choice[0]` over the dict would again
produce first characters, as in `set_priority`.) -/
def Task.set_status (t : Task) (status : String) (now : Int) : Except PyError Task :=
  match classAttr "STATUS_CHOICES" with
  | none => .error (.attributeError "STATUS_CHOICES")
  | some choices =>
    let valid_statuses := choices.map (fun choice => choice.1.take 1)
    if valid_statuses.contains status then
      let t1 : Task := { t with status := status }
      let t2 : Task :=
        if status == "completed" && t1.completed_at == none then
          { t1 with completed_at := some now }
        else if status != "completed" then
          { t1 with completed_at := none }
        else t1
      .ok t2
    else
      .error (.valueError valid_statuses)

/-! ## Task serializers (tasks/serializers.py) -/

/-- The validation failures of the task serializers: a required text field
that is blank (empty or whitespace-only, DRF `allow_blank=False`), a text
field over its model `max_length`, an empty-after-trim title from the custom
`validate_title`, or a value outside a choice field's keys. -/
inductive ValidationFail where
  | blank (field : String)
  | maxLength (field : String)
  | emptyTitle
  | badChoice (field : String)
  deriving Repr, DecidableEq

/-- DRF `CharField.run_validation` for a required text field generated from
the model (`title = CharField(max_length=70, blank=False)`, `description =
TextField()`, tasks/models.py lines 7-8): with the default
`trim_whitespace=True` and `allow_blank=False`, an empty or whitespace-only
input fails with a blank error, otherwise the stripped value is passed on. -/
def charFieldValue (field : String) (value : String) : Except ValidationFail String :=
  if pyStrip value == "" then .error (.blank field) else .ok (pyStrip value)

/-- `validate_title` of `TaskCreateSerializer` (serializers.py lines 81-89)
and of `TaskUpdateSerializer` (lines 131-139), which are identical: reject a
title that is empty after `strip()`, otherwise return the stripped value. -/
def validate_title (value : String) : Except ValidationFail String :=
  if pyStrip value == "" then .error .emptyTitle else .ok (pyStrip value)

/-- `get_warning` of `TaskCreateSerializer` (serializers.py lines 73-79) and
of `TaskUpdateSerializer` (lines 123-129), which are identical: a warning
string when the stored task's due date lies strictly in the past. -/
def get_warning (t : Task) (today : Int) : Option String :=
  match t.due_date with
  | some d => if d < today then some "Warning: Due date is in the past." else none
  | none => none

/-- Choice-field validation the framework derives from the model fields
(`choices=STATUS_CHOICE`, `choices=PRIORITY_CHOICES`): an absent value
passes, a supplied value must be one of the keys. -/
def validChoice (choices : List (String × String)) : Option String → Bool
  | none => true
  | some v => (choices.map Prod.fst).contains v

/-- The writable fields of `TaskCreateSerializer` (serializers.py lines
60-71): `title` and `description` are required (their model fields have
`blank=False` and no default), `status`, `priority` and `due_date` are
optional; the model defaults `status` to `pending` and `priority` to
`medium`. -/
structure CreateData where
  title : String
  description : String
  status : Option String := none
  priority : Option String := none
  due_date : Option Int := none
  deriving Repr, DecidableEq

/-- `TaskCreateSerializer` validation plus `create` (serializers.py lines
52-99): the title field runs the framework blank check, the model's
`max_length=70` check (on the stripped value) and then the custom
`validate_title`; the description field runs the framework blank check; the
choice fields are checked against their keys; then
`Task.objects.create(user=user, **validated_data)`.  The model row is created
with its column defaults for the unset fields; `completed_at` defaults to
NULL and `create` never sets it, whatever `status` was supplied.  (DRF
collects the field errors of one request into a dict; this embedding reports
the first failing field, with the same success set.) -/
def TaskCreateSerializer.create (uid tid : Nat) (d : CreateData) :
    Except ValidationFail Task :=
  match charFieldValue "title" d.title with
  | .error e => .error e
  | .ok t1 =>
    if 70 < t1.length then .error (.maxLength "title")
    else
      match validate_title t1 with
      | .error e => .error e
      | .ok title =>
        match charFieldValue "description" d.description with
        | .error e => .error e
        | .ok desc =>
          if !validChoice STATUS_CHOICE d.status then .error (.badChoice "status")
          else if !validChoice PRIORITY_CHOICES d.priority then .error (.badChoice "priority")
          else .ok {
            id := tid
            user := uid
            title := title
            description := desc
            status := d.status.getD "pending"
            priority := d.priority.getD "medium"
            completed_at := none
            due_date := d.due_date }

/-- The writable fields of `TaskUpdateSerializer` (serializers.py lines
110-121), all optional for a PATCH; `due_date` may be set to a date or
explicitly to null. -/
structure UpdateData where
  title : Option String := none
  description : Option String := none
  status : Option String := none
  priority : Option String := none
  due_date : Option (Option Int) := none
  deriving Repr, DecidableEq

/-- The title pipeline on a PATCH: an absent title passes; a supplied one
runs the framework blank check, the model `max_length=70` check and then
`validate_title` (serializers.py lines 131-139). -/
def validatedTitleField : Option String → Except ValidationFail (Option String)
  | none => .ok none
  | some v =>
    match charFieldValue "title" v with
    | .error e => .error e
    | .ok t1 =>
      if 70 < t1.length then .error (.maxLength "title")
      else (validate_title t1).map some

/-- An optional non-blank text field on a PATCH: absent passes, a supplied
value runs the framework blank check and comes back stripped. -/
def optionalCharField (field : String) : Option String → Except ValidationFail (Option String)
  | none => .ok none
  | some v => (charFieldValue field v).map some

/-- The field-validation phase of `TaskUpdateSerializer`: the title pipeline
on a supplied title, the blank check on a supplied description, and the
framework's choice validation on `status` / `priority`. -/
def TaskUpdateSerializer.run_validators (d : UpdateData) :
    Except ValidationFail UpdateData :=
  match validatedTitleField d.title with
  | .error e => .error e
  | .ok tOpt =>
    match optionalCharField "description" d.description with
    | .error e => .error e
    | .ok dOpt =>
      if !validChoice STATUS_CHOICE d.status then .error (.badChoice "status")
      else if !validChoice PRIORITY_CHOICES d.priority then .error (.badChoice "priority")
      else .ok { d with title := tOpt, description := dOpt }

/-- The `for field, value in validated_data.items(): setattr(instance, field,
value)` loop of `TaskUpdateSerializer.update` (serializers.py lines 161-162):
each field present in the data overwrites the instance field. -/
def applyFields (t : Task) (d : UpdateData) : Task :=
  { t with
    title := d.title.getD t.title
    description := d.description.getD t.description
    status := d.status.getD t.status
    priority := d.priority.getD t.priority
    due_date := d.due_date.getD t.due_date }

/-- `TaskUpdateSerializer.update` (serializers.py lines 141-165): on a
transition into `completed` call `mark_complete` and pop `status` from the
data; on a transition out of `completed` call `mark_incomplete` and pop
`status`; then apply the remaining fields. -/
def TaskUpdateSerializer.update (t : Task) (d : UpdateData) (now : Int) : Task :=
  let new_status := d.status.getD t.status
  if new_status == "completed" && t.status != "completed" then
    applyFields (t.mark_complete now) { d with status := none }
  else if new_status != "completed" && t.status == "completed" then
    applyFields t.mark_incomplete { d with status := none }
  else
    applyFields t d

/-! ## Ownership-scoped view operations (tasks/views.py,
user_account/permissions.py)

The store is the list of task rows; the acting identity `uid` is the
framework's `request.user`, threaded explicitly. -/

/-- How a view operation fails: a 404 from the owner-scoped lookup, a 403
from the object permission, or a 400 from serializer validation. -/
inductive ApiError where
  | notFound
  | permissionDenied
  | badRequest (e : ValidationFail)
  deriving Repr, DecidableEq

/-- `IsOwner.has_object_permission` (user_account/permissions.py lines
10-14): the requesting user must be the task's owner. -/
def IsOwner.has_object_permission (uid : Nat) (t : Task) : Bool :=
  t.user == uid

/-- `TaskViewSet.get_queryset` (views.py lines 41-45):
`Task.objects.filter(user=self.request.user)`. -/
def get_queryset (uid : Nat) (store : List Task) : List Task :=
  store.filter (fun t => t.user == uid)

/-- The framework's `self.get_object()`: look the primary key up inside
`get_queryset` (a miss is a 404, so a non-owner's task id is NotFound), then
run `IsOwner.has_object_permission` (a refusal is a 403). -/
def get_object (uid : Nat) (store : List Task) (pk : Nat) : Except ApiError Task :=
  match (get_queryset uid store).find? (fun t => t.id == pk) with
  | none => .error .notFound
  | some t =>
    if IsOwner.has_object_permission uid t then .ok t else .error .permissionDenied

/-- `TaskViewSet.list` (views.py lines 100-120): the caller's tasks and the
explicit count.  The optional filter/search backends only narrow this
queryset and are not modelled. -/
def TaskViewSet.list (uid : Nat) (store : List Task) : List Task × Nat :=
  let qs := get_queryset uid store
  (qs, qs.length)

/-- `TaskViewSet.retrieve` (views.py lines 122-135). -/
def TaskViewSet.retrieve (uid : Nat) (store : List Task) (pk : Nat) :
    Except ApiError Task :=
  get_object uid store pk

/-- `TaskViewSet.partial_update` (views.py lines 137-170): get the object,
validate the patch data, then `TaskUpdateSerializer.update`. -/
def TaskViewSet.partial_update (uid : Nat) (store : List Task) (pk : Nat)
    (d : UpdateData) (now : Int) : Except ApiError Task :=
  match get_object uid store pk with
  | .error e => .error e
  | .ok t =>
    match TaskUpdateSerializer.run_validators d with
    | .error e => .error (.badRequest e)
    | .ok d2 => .ok (TaskUpdateSerializer.update t d2 now)

/-- `TaskViewSet.destroy` (views.py lines 172-187): get the object, delete
it, and answer with a message built from its title. -/
def TaskViewSet.destroy (uid : Nat) (store : List Task) (pk : Nat) :
    Except ApiError (List Task × String) :=
  match get_object uid store pk with
  | .error e => .error e
  | .ok t => .ok (store.erase t, "Task \x27" ++ t.title ++ "\x27 deleted successfully.")

/-- The `complete` action `TaskViewSet.toggle_complete` (views.py lines
189-212): get the object, toggle it, and report the resulting state. -/
def TaskViewSet.toggle_complete (uid : Nat) (store : List Task) (pk : Nat)
    (now : Int) : Except ApiError (Task × String) :=
  match get_object uid store pk with
  | .error e => .error e
  | .ok t =>
    let t2 := t.toggle_complete now
    let msg := if t2.status == "completed" then "Task marked as completed."
               else "Task marked as incomplete."
    .ok (t2, msg)

/-- The `overdue` action (views.py lines 214-234):
`self.get_queryset().filter(due_date__lt=date.today(), status__in=['pending',
'in_progress'])` with the explicit count.  A NULL `due_date` never satisfies
`due_date__lt`.  Note the literal is `in_progress`, not the model's status
key `in_process`. -/
def TaskViewSet.overdue (uid : Nat) (store : List Task) (today : Int) :
    List Task × Nat :=
  let ts := (get_queryset uid store).filter (fun t =>
    (match t.due_date with
     | some d => decide (d < today)
     | none => false) &&
    ["pending", "in_progress"].contains t.status)
  (ts, ts.length)

/-- The `today` action (views.py lines 236-255):
`self.get_queryset().filter(due_date=date.today())` with the explicit
count. -/
def TaskViewSet.today (uid : Nat) (store : List Task) (d : Int) :
    List Task × Nat :=
  let ts := (get_queryset uid store).filter (fun t => t.due_date == some d)
  (ts, ts.length)

/-! ## User account (user_account/models.py, user_account/serializers.py) -/

/-- Modelled from the spec: the User entity (spec section 3) with its
`last_username_change` nullable timestamp — `can_change_username` and
`days_until_username_change` (user_account/models.py lines 32-42) read that
field and `UserProfileSerializer.update` writes it, but its field declaration
does not appear in src/user_account/models.py.  The other fields follow the
model class and `AbstractUser`. -/
structure User where
  username : String
  email : Option String := none
  first_name : String := ""
  last_name : String := ""
  last_username_change : Option Int := none
  deriving Repr, DecidableEq

/-- `timedelta.days` of `timezone.now() - last`, with both instants in
seconds: the number of whole days, floored (Python floors `.days` toward
minus infinity for negative deltas too). -/
def timedeltaDays (now last : Int) : Int :=
  Int.fdiv (now - last) 86400

/-- `User.can_change_username` (user_account/models.py lines 32-36):
`weeks_since_change = (timezone.now() - self.last_username_change).days / 7`
with Python true division, then `weeks_since_change >= 2`. -/
def User.can_change_username (u : User) (now : Int) : Bool :=
  match u.last_username_change with
  | none => true
  | some last =>
    let weeks_since_change : ℚ := (timedeltaDays now last : ℚ) / 7
    decide (2 ≤ weeks_since_change)

/-- `User.days_until_username_change` (user_account/models.py lines 38-42):
0 when changeable, else `14 - days_passed`.  The inner `none` branch cannot
run: `can_change_username` is true whenever `last_username_change` is unset. -/
def User.days_until_username_change (u : User) (now : Int) : Int :=
  if u.can_change_username now then 0
  else
    match u.last_username_change with
    | none => 0
    | some last => 14 - timedeltaDays now last

/-- Python `s.isalnum()`: non-empty and every character alphanumeric (read
over ASCII here). -/
def pyIsAlnum (s : String) : Bool :=
  !s.data.isEmpty && s.data.all Char.isAlphanum

/-- Python `s.replace('_', '')`: the string with every underscore removed. -/
def pyRemoveUnderscores (s : String) : String :=
  ⟨s.data.filter (fun c => c ≠ '_')⟩

/-- The failures of `UserProfileSerializer.validate_username`. -/
inductive ProfileError where
  | cooldown (days_left : Int)
  | duplicateUsername
  | badUsernameChars
  deriving Repr, DecidableEq

/-- `UserProfileSerializer.validate_username` (user_account/serializers.py
lines 223-256): an unchanged username passes untouched; a changed one is
checked against the cooldown (failing with the remaining-day count), then
uniqueness among the other users' names, then the allowed character set.
`others` is the set of usernames of users other than `u`. -/
def UserProfileSerializer.validate_username (u : User) (value : String)
    (now : Int) (others : List String) : Except ProfileError String :=
  if u.username == value then .ok value
  else if !u.can_change_username now then
    .error (.cooldown (u.days_until_username_change now))
  else if others.contains value then .error .duplicateUsername
  else if !pyIsAlnum (pyRemoveUnderscores value) then .error .badUsernameChars
  else .ok value

/-- `UserRegistrationSerializer.validate_password` (user_account/serializers.py
lines 38-63): collect every failed strength rule, in source order, and reject
when any failed. -/
def UserRegistrationSerializer.validate_password (value : String) :
    Except (List String) String :=
  let errors :=
    (if value.length < 8 then ["Password must be at least 8 characters long."] else []) ++
    (if !value.data.any Char.isUpper then ["Password must contain at least one uppercase letter."] else []) ++
    (if !value.data.any Char.isLower then ["Password must contain at least one lowercase letter."] else []) ++
    (if !value.data.any Char.isDigit then ["Password must contain at least one number."] else [])
  if errors.isEmpty then .ok value else .error errors

/-- The registration payload (user_account/serializers.py lines 22-36). -/
structure RegistrationData where
  username : String
  password : String
  password_confirm : String
  first_name : String := ""
  last_name : String := ""
  email : Option String := none
  deriving Repr, DecidableEq

/-- The field-level failures of registration. -/
inductive RegError where
  | passwordErrors (msgs : List String)
  | duplicateUsername
  | badUsernameChars
  | duplicateEmail
  | passwordsDoNotMatch
  deriving Repr, DecidableEq

/-- `UserRegistrationSerializer` end to end (user_account/serializers.py
lines 38-120): the field validators `validate_password` (lines 38-63),
`validate_username` (lines 75-92) and `validate_email` (lines 65-73, skipped
for an absent or empty value), then the object-level `validate` comparing
`password` with `password_confirm` (lines 94-102), then `create` (lines
104-120).  An error at any stage means no user is created. -/
def UserRegistrationSerializer.run (existing_usernames existing_emails : List String)
    (d : RegistrationData) : Except RegError User :=
  match UserRegistrationSerializer.validate_password d.password with
  | .error es => .error (.passwordErrors es)
  | .ok _ =>
    if existing_usernames.contains d.username then .error .duplicateUsername
    else if !pyIsAlnum (pyRemoveUnderscores d.username) then .error .badUsernameChars
    else if (match d.email with
             | some e => !e.isEmpty && existing_emails.contains e
             | none => false) then .error .duplicateEmail
    else if d.password != d.password_confirm then .error .passwordsDoNotMatch
    else .ok {
      username := d.username
      email := d.email
      first_name := d.first_name
      last_name := d.last_name
      last_username_change := none }

/-! ## Derived notions used by the statements -/

/-- The spec's completion invariant: `completed_at` is non-null exactly when
the status is `completed`. -/
def taskInvariant (t : Task) : Prop :=
  t.completed_at ≠ none ↔ t.status = "completed"

/-- Iterated `toggle_complete`, one timestamp per application. -/
def toggleIter (t : Task) : List Int → Task
  | [] => t
  | n :: ns => toggleIter (t.toggle_complete n) ns

/-! ## Theorems -/

lemma dropWhile_head_false (p : Char → Bool) (l : List Char) :
    ∀ (c : Char) (cs : List Char), l.dropWhile p = c :: cs → p c = false := by
  induction l with
  | nil =>
    intro c cs h
    cases h
  | cons a as ih =>
    intro c cs h
    rw [List.dropWhile_cons] at h
    by_cases hp : p a = true
    · rw [if_pos hp] at h
      exact ih c cs h
    · rw [if_neg hp] at h
      cases h
      simpa using hp

lemma dropWhile_idem (p : Char → Bool) (l : List Char) :
    (l.dropWhile p).dropWhile p = l.dropWhile p := by
  cases h : l.dropWhile p with
  | nil => rfl
  | cons c cs =>
    have hc := dropWhile_head_false p l c cs h
    rw [List.dropWhile_cons, if_neg (by simp [hc])]

lemma strip_data_idem (l : List Char) :
    (((((l.dropWhile Char.isWhitespace).reverse.dropWhile
          Char.isWhitespace).reverse).dropWhile Char.isWhitespace).reverse.dropWhile
        Char.isWhitespace).reverse =
      ((l.dropWhile Char.isWhitespace).reverse.dropWhile Char.isWhitespace).reverse := by
  have hzw :
      ((l.dropWhile Char.isWhitespace).reverse.dropWhile Char.isWhitespace).reverse ++
          ((l.dropWhile Char.isWhitespace).reverse.takeWhile Char.isWhitespace).reverse =
        l.dropWhile Char.isWhitespace := by
    rw [← List.reverse_append,
      List.takeWhile_append_dropWhile Char.isWhitespace (l.dropWhile Char.isWhitespace).reverse,
      List.reverse_reverse]
  have hA :
      (((l.dropWhile Char.isWhitespace).reverse.dropWhile
          Char.isWhitespace).reverse).dropWhile Char.isWhitespace =
        ((l.dropWhile Char.isWhitespace).reverse.dropWhile Char.isWhitespace).reverse := by
    cases hzc : ((l.dropWhile Char.isWhitespace).reverse.dropWhile Char.isWhitespace).reverse with
    | nil => rfl
    | cons c cs =>
      rw [hzc, List.cons_append] at hzw
      have hc : Char.isWhitespace c = false :=
        dropWhile_head_false Char.isWhitespace l c _ hzw.symm
      rw [List.dropWhile_cons, if_neg (by simp [hc])]
  rw [hA, List.reverse_reverse, dropWhile_idem]

lemma pyStrip_pyStrip (s : String) : pyStrip (pyStrip s) = pyStrip s := by
  unfold pyStrip
  exact congrArg String.mk (strip_data_idem s.data)

lemma create_ok_form (uid tid : Nat) (d : CreateData) (t : Task)
    (hok : TaskCreateSerializer.create uid tid d = .ok t) :
    t = { id := tid, user := uid, title := pyStrip d.title,
          description := pyStrip d.description,
          status := d.status.getD "pending", priority := d.priority.getD "medium",
          completed_at := none, due_date := d.due_date } := by
  unfold TaskCreateSerializer.create charFieldValue validate_title at hok
  by_cases hT : pyStrip d.title = ""
  · simp [hT] at hok
  · by_cases hL : 70 < (pyStrip d.title).length
    · simp [hT, hL] at hok
    · by_cases hD : pyStrip d.description = ""
      · simp [hT, hL, hD, pyStrip_pyStrip] at hok
      · by_cases hS : validChoice STATUS_CHOICE d.status = true
        · by_cases hP : validChoice PRIORITY_CHOICES d.priority = true
          · simp [hT, hL, hD, hS, hP, pyStrip_pyStrip] at hok
            exact hok.symm
          · simp [hT, hL, hD, hS, hP, pyStrip_pyStrip] at hok
        · simp [hT, hL, hD, hS, pyStrip_pyStrip] at hok

lemma create_ok_iff (uid tid : Nat) (d : CreateData) :
    (∃ t, TaskCreateSerializer.create uid tid d = .ok t) ↔
      (pyStrip d.title ≠ "" ∧ (pyStrip d.title).length ≤ 70 ∧
       pyStrip d.description ≠ "" ∧ validChoice STATUS_CHOICE d.status = true ∧
       validChoice PRIORITY_CHOICES d.priority = true) := by
  unfold TaskCreateSerializer.create charFieldValue validate_title
  by_cases hT : pyStrip d.title = ""
  · simp [hT]
  · by_cases hL : 70 < (pyStrip d.title).length
    · simp [hT, hL]
    · by_cases hD : pyStrip d.description = ""
      · simp [hT, hL, hD, pyStrip_pyStrip]
      · by_cases hS : validChoice STATUS_CHOICE d.status = true
        · by_cases hP : validChoice PRIORITY_CHOICES d.priority = true
          · simp [hT, hL, hD, hS, hP, pyStrip_pyStrip]
            omega
          · simp [hT, hL, hD, hS, hP, pyStrip_pyStrip]
        · simp [hT, hL, hD, hS, pyStrip_pyStrip]

/-- C1 (counterexample): an otherwise fully valid create payload (non-blank
title and description, both within limits) with the client-supplied status
`completed` passes every serializer check and stores `completed_at = null`,
so the claimed invariant is false right after this public operation. -/
theorem create_completed_breaks_invariant :
    TaskCreateSerializer.create 1 1
        { title := "task", description := "task details", status := some "completed" } =
      .ok ⟨1, 1, "task", "task details", "completed", "medium", none, none⟩ ∧
    ¬ taskInvariant ⟨1, 1, "task", "task details", "completed", "medium", none, none⟩ := by
  constructor
  · decide
  · simp [taskInvariant]

/-- C1 (amended): `mark_complete`, `mark_incomplete` and `toggle_complete`
re-establish the invariant unconditionally, `TaskUpdateSerializer.update`
preserves it, and `set_status` always raises `AttributeError` (so it never
changes a task); but every task returned by `TaskCreateSerializer.create`
has `completed_at = null`, so a create with client-supplied status
`completed` violates the biconditional. -/
theorem completed_at_invariant_amended :
    (∀ (t : Task) (now : Int), taskInvariant (t.mark_complete now)) ∧
    (∀ t : Task, taskInvariant t.mark_incomplete) ∧
    (∀ (t : Task) (now : Int), taskInvariant (t.toggle_complete now)) ∧
    (∀ (t : Task) (d : UpdateData) (now : Int),
      taskInvariant t → taskInvariant (TaskUpdateSerializer.update t d now)) ∧
    (∀ (t : Task) (s : String) (now : Int),
      Task.set_status t s now = .error (.attributeError "STATUS_CHOICES")) ∧
    (∀ (uid tid : Nat) (d : CreateData) (t : Task),
      TaskCreateSerializer.create uid tid d = .ok t → t.completed_at = none) := by
  refine ⟨?_, ?_, ?_, ?_, ?_, ?_⟩
  · intro t now
    simp [taskInvariant, Task.mark_complete]
  · intro t
    simp [taskInvariant, Task.mark_incomplete]
  · intro t now
    unfold Task.toggle_complete
    split
    · simp [taskInvariant, Task.mark_incomplete]
    · simp [taskInvariant, Task.mark_complete]
  · intro t d now h
    simp only [TaskUpdateSerializer.update]
    split
    · simp [taskInvariant, applyFields, Task.mark_complete]
    · rename_i h1
      split
      · simp [taskInvariant, applyFields, Task.mark_incomplete]
      · rename_i h2
        simp only [Bool.and_eq_true, beq_iff_eq, bne_iff_ne, ne_eq, not_and,
          Bool.not_eq_true, Classical.not_imp, not_not] at h1 h2
        simp only [taskInvariant, applyFields, ne_eq] at h ⊢
        constructor
        · intro hc
          by_cases hs : d.status.getD t.status = "completed"
          · exact hs
          · exact absurd (h.mp hc) (h2 hs)
        · intro hc
          exact h.mpr (h1 hc)
  · intro t s now
    rfl
  · intro uid tid d t hok
    rw [create_ok_form uid tid d t hok]

/-- C1 (witness for the amended statement): on the concrete pending task,
the update that patches the status to `completed` keeps the invariant. -/
theorem completed_at_invariant_witness :
    taskInvariant (TaskUpdateSerializer.update
      ⟨1, 1, "t", "", "pending", "medium", none, none⟩ { status := some "completed" } 9) :=
  completed_at_invariant_amended.2.2.2.1
    ⟨1, 1, "t", "", "pending", "medium", none, none⟩ { status := some "completed" } 9
    (by simp [taskInvariant])

/-- C2: `set_priority` validates against the first characters of the
priority keys, not the keys: `set_priority("low")` raises
`ValueError` (and leaves the task unchanged, as the error precedes the
assignment), while the one-letter `set_priority("l")` is accepted and
stored. -/
theorem set_priority_first_char_validation :
    Task.set_priority ⟨1, 1, "t", "", "pending", "medium", none, none⟩ "low" =
      .error (.valueError ["l", "m", "h"]) ∧
    Task.set_priority ⟨1, 1, "t", "", "pending", "medium", none, none⟩ "l" =
      .ok ⟨1, 1, "t", "", "pending", "l", none, none⟩ := by
  constructor <;> rfl

/-- C3: `set_status` reads the nonexistent class attribute `STATUS_CHOICES`
(the dict is named `STATUS_CHOICE`), so every call — valid or not — raises
`AttributeError` before any mutation; it never succeeds and never raises the
documented `ValueError` listing the allowed statuses. -/
theorem set_status_always_attribute_error :
    ∀ (t : Task) (s : String) (now : Int),
      Task.set_status t s now = .error (.attributeError "STATUS_CHOICES") := by
  intro t s now
  rfl

/-- C7 (counterexample): starting from `completed`, two toggles land on
`completed`, not on the claimed `pending` (completed → pending →
completed). -/
theorem toggle_twice_from_completed :
    ((Task.toggle_complete (Task.toggle_complete
        ⟨1, 1, "t", "", "completed", "medium", some 0, none⟩ 1) 2).status = "completed") ∧
    ¬ ((Task.toggle_complete (Task.toggle_complete
        ⟨1, 1, "t", "", "completed", "medium", some 0, none⟩ 1) 2).status = "pending") := by
  constructor
  · rfl
  · simp [Task.toggle_complete, Task.mark_complete, Task.mark_incomplete]

/-- C7 (amended): two toggles yield `completed` when the task started at
`completed`, and `pending` when it started anywhere else (in particular at
`pending` or `in_process`); the double application is not the identity on a
task starting at `in_process`, and once toggled — any positive number of
times — a task is never at status `in_process`. -/
theorem toggle_twice_amended :
    (∀ (t : Task) (n1 n2 : Int), t.status = "completed" →
      ((t.toggle_complete n1).toggle_complete n2).status = "completed") ∧
    (∀ (t : Task) (n1 n2 : Int), t.status ≠ "completed" →
      ((t.toggle_complete n1).toggle_complete n2).status = "pending") ∧
    (((Task.toggle_complete (Task.toggle_complete
        ⟨1, 1, "t", "", "in_process", "medium", none, none⟩ 1) 2).status = "pending")) ∧
    (∀ (t : Task) (ns : List Int), ns ≠ [] → (toggleIter t ns).status ≠ "in_process") := by
  have hstep : ∀ (t : Task) (n : Int),
      (t.toggle_complete n).status = "pending" ∨
      (t.toggle_complete n).status = "completed" := by
    intro t n
    unfold Task.toggle_complete
    split
    · exact Or.inl rfl
    · exact Or.inr rfl
  refine ⟨?_, ?_, rfl, ?_⟩
  · intro t n1 n2 h
    simp [Task.toggle_complete, Task.mark_complete, Task.mark_incomplete, h]
  · intro t n1 n2 h
    have h1 : (t.status == "completed") = false := by
      simp [h]
    simp [Task.toggle_complete, Task.mark_complete, Task.mark_incomplete, h1]
  · intro t ns
    induction ns generalizing t with
    | nil => intro h; exact absurd rfl h
    | cons n ns ih =>
      intro _
      cases ns with
      | nil =>
        rcases hstep t n with h | h <;> simp [toggleIter, h]
      | cons m ms =>
        exact ih (t.toggle_complete n) (by simp)

/-- C4: the overdue endpoint filters on `status__in=['pending',
'in_progress']`, and `in_progress` is not a status the model can hold
(the key is `in_process`), so the caller's `in_process` task with a past due
date is left out — even though the model's own `is_overdue` predicate holds
for it — and only `pending` tasks can ever be returned. -/
theorem overdue_excludes_in_process :
    TaskViewSet.overdue 1 [⟨7, 1, "t", "", "in_process", "medium", none, some 0⟩] 1 =
      ([], 0) ∧
    Task.is_overdue ⟨7, 1, "t", "", "in_process", "medium", none, some 0⟩ 1 = true ∧
    TaskViewSet.overdue 1 [⟨7, 1, "t", "", "pending", "medium", none, some 0⟩] 1 =
      ([⟨7, 1, "t", "", "pending", "medium", none, some 0⟩], 1) := by
  refine ⟨by decide, by decide, by decide⟩

/-- C8: `is_overdue` holds exactly when the due date is set, lies strictly
before today, and the status is not `completed`; it is false for every
completed task whatever the due date; and `is_completed` holds exactly when
the status is `completed`. -/
theorem is_overdue_iff :
    (∀ (t : Task) (today : Int),
      t.is_overdue today = true ↔
        (∃ d, t.due_date = some d ∧ d < today) ∧ t.status ≠ "completed") ∧
    (∀ (t : Task) (today : Int), t.status = "completed" → t.is_overdue today = false) ∧
    (∀ t : Task, t.is_completed = true ↔ t.status = "completed") := by
  refine ⟨?_, ?_, ?_⟩
  · intro t today
    unfold Task.is_overdue
    cases hd : t.due_date with
    | none => simp
    | some d =>
      by_cases hs : t.status = "completed"
      · simp [hs]
      · simp [hs]
  · intro t today h
    unfold Task.is_overdue
    cases hd : t.due_date with
    | none => simp
    | some d => simp [h]
  · intro t
    unfold Task.is_completed
    simp

/-- C8 (witness): the concrete past-due pending task is overdue, and the
same task completed is not. -/
theorem is_overdue_iff_witness :
    Task.is_overdue ⟨7, 1, "t", "", "pending", "medium", none, some 0⟩ 1 = true ∧
    Task.is_overdue ⟨7, 1, "t", "", "completed", "medium", some 0, some 0⟩ 1 = false :=
  ⟨(is_overdue_iff.1 ⟨7, 1, "t", "", "pending", "medium", none, some 0⟩ 1).mpr
      ⟨⟨0, rfl, by decide⟩, by decide⟩,
   is_overdue_iff.2.1 ⟨7, 1, "t", "", "completed", "medium", some 0, some 0⟩ 1 rfl⟩

lemma get_queryset_mem (uid : Nat) (store : List Task) :
    ∀ t ∈ get_queryset uid store, t.user = uid := by
  intro t ht
  simp only [get_queryset, List.mem_filter, beq_iff_eq] at ht
  exact ht.2

lemma mem_of_mem_get_queryset (uid : Nat) (store : List Task) :
    ∀ t ∈ get_queryset uid store, t ∈ store := by
  intro t ht
  simp only [get_queryset, List.mem_filter] at ht
  exact ht.1

lemma get_queryset_append_other (uid : Nat) (store : List Task) (x : Task)
    (hx : x.user ≠ uid) :
    get_queryset uid (store ++ [x]) = get_queryset uid store := by
  unfold get_queryset
  rw [List.filter_append]
  simp [hx]

lemma get_object_not_owner (uid : Nat) (store : List Task) (pk : Nat)
    (h : ∀ t ∈ store, t.id = pk → t.user ≠ uid) :
    get_object uid store pk = .error .notFound := by
  unfold get_object
  have hfind : (get_queryset uid store).find? (fun t => t.id == pk) = none := by
    rw [List.find?_eq_none]
    intro t ht
    have hu : t.user = uid := get_queryset_mem uid store t ht
    have hmem : t ∈ store := mem_of_mem_get_queryset uid store t ht
    simp only [beq_iff_eq]
    intro hid
    exact (h t hmem hid) hu
  rw [hfind]

lemma get_object_append_other (uid : Nat) (store : List Task) (x : Task) (pk : Nat)
    (hx : x.user ≠ uid) :
    get_object uid (store ++ [x]) pk = get_object uid store pk := by
  unfold get_object
  rw [get_queryset_append_other uid store x hx]

/-- C5: single-task operations on a task owned by someone else fail with
NotFound (the owner-scoped queryset hides it before the `IsOwner` check even
runs) and return no task data; every list-style query draws only from the
acting user's tasks; and every response is unchanged when another user's
task is added to the store (equivalently, removed from it). -/
theorem ownership_scoped_access :
    (∀ (uid : Nat) (store : List Task) (pk : Nat) (d : UpdateData) (now : Int),
      (∀ t ∈ store, t.id = pk → t.user ≠ uid) →
        TaskViewSet.retrieve uid store pk = .error .notFound ∧
        TaskViewSet.partial_update uid store pk d now = .error .notFound ∧
        TaskViewSet.destroy uid store pk = .error .notFound ∧
        TaskViewSet.toggle_complete uid store pk now = .error .notFound) ∧
    (∀ (uid : Nat) (store : List Task) (dt : Int),
      (∀ t ∈ (TaskViewSet.list uid store).1, t.user = uid) ∧
      (∀ t ∈ (TaskViewSet.overdue uid store dt).1, t.user = uid) ∧
      (∀ t ∈ (TaskViewSet.today uid store dt).1, t.user = uid)) ∧
    (∀ (uid : Nat) (store : List Task) (pk : Nat) (d : UpdateData) (now dt : Int)
        (x : Task), x.user ≠ uid →
      TaskViewSet.list uid (store ++ [x]) = TaskViewSet.list uid store ∧
      TaskViewSet.overdue uid (store ++ [x]) dt = TaskViewSet.overdue uid store dt ∧
      TaskViewSet.today uid (store ++ [x]) dt = TaskViewSet.today uid store dt ∧
      TaskViewSet.retrieve uid (store ++ [x]) pk = TaskViewSet.retrieve uid store pk ∧
      TaskViewSet.partial_update uid (store ++ [x]) pk d now =
        TaskViewSet.partial_update uid store pk d now ∧
      TaskViewSet.toggle_complete uid (store ++ [x]) pk now =
        TaskViewSet.toggle_complete uid store pk now ∧
      (TaskViewSet.destroy uid (store ++ [x]) pk).map Prod.snd =
        (TaskViewSet.destroy uid store pk).map Prod.snd) := by
  refine ⟨?_, ?_, ?_⟩
  · intro uid store pk d now h
    have hobj := get_object_not_owner uid store pk h
    refine ⟨hobj, ?_, ?_, ?_⟩
    · unfold TaskViewSet.partial_update
      rw [hobj]
    · unfold TaskViewSet.destroy
      rw [hobj]
    · unfold TaskViewSet.toggle_complete
      rw [hobj]
  · intro uid store dt
    refine ⟨?_, ?_, ?_⟩
    · intro t ht
      exact get_queryset_mem uid store t ht
    · intro t ht
      unfold TaskViewSet.overdue at ht
      exact get_queryset_mem uid store t (List.mem_of_mem_filter ht)
    · intro t ht
      unfold TaskViewSet.today at ht
      exact get_queryset_mem uid store t (List.mem_of_mem_filter ht)
  · intro uid store pk d now dt x hx
    have hq := get_queryset_append_other uid store x hx
    have hobj := get_object_append_other uid store x pk hx
    refine ⟨?_, ?_, ?_, hobj, ?_, ?_, ?_⟩
    · unfold TaskViewSet.list
      rw [hq]
    · unfold TaskViewSet.overdue
      rw [hq]
    · unfold TaskViewSet.today
      rw [hq]
    · unfold TaskViewSet.partial_update
      rw [hobj]
    · unfold TaskViewSet.toggle_complete
      rw [hobj]
    · unfold TaskViewSet.destroy
      rw [hobj]
      cases get_object uid store pk with
      | error e => rfl
      | ok t => rfl

/-- C5 (witness): with a one-task store owned by user 2, acting user 1 gets
NotFound from every single-task operation, sees empty lists, and the
response is the same over the empty store. -/
theorem ownership_scoped_access_witness :
    TaskViewSet.retrieve 1 [⟨5, 2, "t", "", "pending", "medium", none, none⟩] 5 =
      .error .notFound ∧
    TaskViewSet.destroy 1 [⟨5, 2, "t", "", "pending", "medium", none, none⟩] 5 =
      .error .notFound ∧
    TaskViewSet.list 1 ([] ++ [⟨5, 2, "t", "", "pending", "medium", none, none⟩]) =
      TaskViewSet.list 1 [] := by
  have h1 := (ownership_scoped_access.1 1
    [⟨5, 2, "t", "", "pending", "medium", none, none⟩] 5 {} 0 (by decide))
  have h3 := (ownership_scoped_access.2.2 1 [] 5 {} 0 0
    ⟨5, 2, "t", "", "pending", "medium", none, none⟩ (by decide))
  exact ⟨h1.1, h1.2.2.1, h3.1⟩

lemma weeks_ge_two_iff (d : Int) : (2 ≤ (d : ℚ) / 7) ↔ 14 ≤ d := by
  rw [le_div_iff₀ (by norm_num : (0:ℚ) < 7)]
  constructor
  · intro h
    exact_mod_cast (by linarith : (14:ℚ) ≤ (d:ℚ))
  · intro h
    have h14 : (14:ℚ) ≤ (d:ℚ) := by exact_mod_cast h
    linarith

/-- C6: `can_change_username` is true exactly when the last change is unset
or at least 14 whole (truncated) days have elapsed — so exactly 14 elapsed
days already allows the change; `days_until_username_change` is 0 when
changeable and `14 − elapsed days` otherwise; and `validate_username`
rejects an actual username change with the remaining-day count exactly when
`can_change_username` is false. -/
theorem username_cooldown :
    (∀ (u : User) (now : Int),
      u.can_change_username now = true ↔
        (u.last_username_change = none ∨
         ∃ last, u.last_username_change = some last ∧ 14 ≤ timedeltaDays now last)) ∧
    (∀ (u : User) (now : Int),
      u.can_change_username now = true → u.days_until_username_change now = 0) ∧
    (∀ (u : User) (now last : Int), u.last_username_change = some last →
      u.can_change_username now = false →
      u.days_until_username_change now = 14 - timedeltaDays now last) ∧
    (∀ (u : User) (value : String) (now : Int) (others : List String),
      ((∃ dl, UserProfileSerializer.validate_username u value now others =
          .error (.cooldown dl)) ↔
        u.username ≠ value ∧ u.can_change_username now = false) ∧
      (u.username ≠ value → u.can_change_username now = false →
        UserProfileSerializer.validate_username u value now others =
          .error (.cooldown (u.days_until_username_change now)))) := by
  refine ⟨?_, ?_, ?_, ?_⟩
  · intro u now
    unfold User.can_change_username
    cases hl : u.last_username_change with
    | none => simp
    | some last =>
      simp only [decide_eq_true_eq, weeks_ge_two_iff, hl, Option.some.injEq]
      constructor
      · intro h
        exact Or.inr ⟨last, rfl, h⟩
      · rintro (h | ⟨l, hl2, h⟩)
        · cases h
        · rwa [hl2]
  · intro u now h
    unfold User.days_until_username_change
    rw [if_pos h]
  · intro u now last hl hc
    unfold User.days_until_username_change
    rw [if_neg (by simp [hc]), hl]
  · intro u value now others
    by_cases he : u.username = value
    · refine ⟨⟨?_, ?_⟩, ?_⟩
      · rintro ⟨dl, hdl⟩
        unfold UserProfileSerializer.validate_username at hdl
        simp [he] at hdl
      · rintro ⟨hne, _⟩
        exact absurd he hne
      · intro hne _
        exact absurd he hne
    · by_cases hc : u.can_change_username now = true
      · refine ⟨⟨?_, ?_⟩, ?_⟩
        · rintro ⟨dl, hdl⟩
          unfold UserProfileSerializer.validate_username at hdl
          simp only [he, beq_iff_eq, if_false, hc, Bool.not_true, Bool.false_eq_true,
            if_false] at hdl
          split at hdl
          · simp at hdl
          · split at hdl
            · simp at hdl
            · simp at hdl
        · rintro ⟨_, hcf⟩
          rw [hc] at hcf
          cases hcf
        · intro _ hcf
          rw [hc] at hcf
          cases hcf
      · have hcf : u.can_change_username now = false := by
          simpa using hc
        refine ⟨⟨?_, ?_⟩, ?_⟩
        · intro _
          exact ⟨he, hcf⟩
        · intro _
          refine ⟨u.days_until_username_change now, ?_⟩
          unfold UserProfileSerializer.validate_username
          simp [he, hcf]
        · intro _ _
          unfold UserProfileSerializer.validate_username
          simp [he, hcf]

/-- C6 (witness): with the last change at time 0, the change is allowed at
exactly 14 elapsed days, and an attempted change at 3 elapsed days is
rejected with the 11 remaining days. -/
theorem username_cooldown_witness :
    User.can_change_username ⟨"a", none, "", "", some 0⟩ (14 * 86400) = true ∧
    UserProfileSerializer.validate_username ⟨"a", none, "", "", some 0⟩ "b"
      (3 * 86400) [] = .error (.cooldown 11) := by
  have hcf : User.can_change_username ⟨"a", none, "", "", some 0⟩ (3 * 86400) = false := by
    by_contra hct
    have ht : User.can_change_username ⟨"a", none, "", "", some 0⟩ (3 * 86400) = true := by
      simpa using hct
    rcases (username_cooldown.1 ⟨"a", none, "", "", some 0⟩ (3 * 86400)).mp ht with
      h | ⟨l, hl, hge⟩
    · cases h
    · have hl0 : (0 : Int) = l := by simpa using hl
      rw [← hl0] at hge
      exact absurd hge (by decide)
  constructor
  · exact (username_cooldown.1 ⟨"a", none, "", "", some 0⟩ (14 * 86400)).mpr
      (Or.inr ⟨0, rfl, by decide⟩)
  · have h := (username_cooldown.2.2.2 ⟨"a", none, "", "", some 0⟩ "b" (3 * 86400) []).2
      (by simp) hcf
    have hd := username_cooldown.2.2.1 ⟨"a", none, "", "", some 0⟩ (3 * 86400) 0 rfl hcf
    have h11 : (14 : Int) - timedeltaDays (3 * 86400) 0 = 11 := by decide
    rw [hd, h11] at h
    exact h

/-- C9 (counterexample): the claim's example payload `{title: " Buy milk ",
due_date: yesterday}` carries no description, but the serializer requires a
non-blank description (`description = models.TextField()` has `blank=False`),
so the program rejects it with a 400 and stores nothing — the example does
not store `"Buy milk"` or return a warning. -/
theorem create_example_requires_description :
    TaskCreateSerializer.create 1 1
        { title := " Buy milk ", description := "", due_date := some 4 } =
      .error (.blank "description") := by
  decide

/-- C9 (amended): a title that is empty after stripping is rejected (by the
field-level blank check, and `validate_title` rejects it too) and the
stripped title is stored when the whole payload validates — which also
requires a non-blank description, a stripped title of at most 70 characters
and valid choice fields; a past due date attaches the advisory warning but
never decides whether the write succeeds (success does not depend on
`due_date`); and the spec's example needs a non-blank description: with one
added (today = 5, yesterday = 4) it stores title `"Buy milk"`, warns, and is
overdue. -/
theorem title_strip_and_past_due_warning :
    (∀ s : String, pyStrip s = "" → validate_title s = .error .emptyTitle) ∧
    (∀ s : String, pyStrip s ≠ "" → validate_title s = .ok (pyStrip s)) ∧
    (∀ (t : Task) (today : Int),
      (∃ w, get_warning t today = some w) ↔ ∃ d, t.due_date = some d ∧ d < today) ∧
    (∀ (uid tid : Nat) (d : CreateData),
      (∃ t, TaskCreateSerializer.create uid tid d = .ok t) ↔
        (pyStrip d.title ≠ "" ∧ (pyStrip d.title).length ≤ 70 ∧
         pyStrip d.description ≠ "" ∧ validChoice STATUS_CHOICE d.status = true ∧
         validChoice PRIORITY_CHOICES d.priority = true)) ∧
    (∀ (uid tid : Nat) (d : CreateData) (t : Task),
      TaskCreateSerializer.create uid tid d = .ok t →
        t.title = pyStrip d.title ∧ t.due_date = d.due_date) ∧
    (∀ (t : Task) (d : UpdateData) (ttl : String) (now : Int), d.title = some ttl →
      (TaskUpdateSerializer.update t d now).title = ttl) ∧
    (TaskCreateSerializer.create 1 1
        { title := " Buy milk ", description := "milk", due_date := some 4 } =
      .ok ⟨1, 1, "Buy milk", "milk", "pending", "medium", none, some 4⟩) ∧
    (get_warning ⟨1, 1, "Buy milk", "milk", "pending", "medium", none, some 4⟩ 5 =
      some "Warning: Due date is in the past.") ∧
    (Task.is_overdue ⟨1, 1, "Buy milk", "milk", "pending", "medium", none, some 4⟩ 5 = true) := by
  refine ⟨?_, ?_, ?_, ?_, ?_, ?_, by decide, by decide, by decide⟩
  · intro s h
    unfold validate_title
    simp [h]
  · intro s h
    unfold validate_title
    simp [h]
  · intro t today
    unfold get_warning
    cases hd : t.due_date with
    | none => simp
    | some d =>
      by_cases hlt : d < today
      · simp [hlt]
      · simp [hlt]
  · intro uid tid d
    exact create_ok_iff uid tid d
  · intro uid tid d t hok
    rw [create_ok_form uid tid d t hok]
    exact ⟨rfl, rfl⟩
  · intro t d ttl now hd
    simp only [TaskUpdateSerializer.update]
    split
    · simp [applyFields, hd]
    · split
      · simp [applyFields, hd]
      · simp [applyFields, hd]

/-- C9 (witness): a whitespace-padded title is stored stripped, and an
all-whitespace title is rejected. -/
theorem title_strip_witness :
    validate_title "  a  " = .ok "a" ∧ validate_title "   " = .error .emptyTitle :=
  ⟨title_strip_and_past_due_warning.2.1 "  a  " (by decide),
   title_strip_and_past_due_warning.1 "   " (by decide)⟩

/-- The password-strength rules of `validate_password`, as one predicate. -/
def strongPassword (p : String) : Prop :=
  8 ≤ p.length ∧ p.data.any Char.isUpper = true ∧ p.data.any Char.isLower = true ∧
    p.data.any Char.isDigit = true

lemma validate_password_ok_iff (p : String) :
    UserRegistrationSerializer.validate_password p = .ok p ↔ strongPassword p := by
  unfold UserRegistrationSerializer.validate_password strongPassword
  by_cases h1 : p.length < 8 <;>
    by_cases h2 : p.data.any Char.isUpper = true <;>
      by_cases h3 : p.data.any Char.isLower = true <;>
        by_cases h4 : p.data.any Char.isDigit = true <;>
          simp [h1, h2, h3, h4] <;> omega

/-- C10: registration returns a user only when the password is at least 8
characters with an uppercase letter, a lowercase letter and a digit, and
equals `password_confirm`; whenever any of these is violated, no input
(whatever users already exist) produces a user. -/
theorem registration_password_policy :
    (∀ (eu ee : List String) (d : RegistrationData) (u : User),
      UserRegistrationSerializer.run eu ee d = .ok u →
        strongPassword d.password ∧ d.password = d.password_confirm) ∧
    (∀ (eu ee : List String) (d : RegistrationData),
      ¬(strongPassword d.password ∧ d.password = d.password_confirm) →
        ∀ u, UserRegistrationSerializer.run eu ee d ≠ .ok u) := by
  have main : ∀ (eu ee : List String) (d : RegistrationData) (u : User),
      UserRegistrationSerializer.run eu ee d = .ok u →
        strongPassword d.password ∧ d.password = d.password_confirm := by
    intro eu ee d u hok
    unfold UserRegistrationSerializer.run at hok
    cases hv : UserRegistrationSerializer.validate_password d.password with
    | error es =>
      rw [hv] at hok
      cases hok
    | ok v =>
      have hvp : v = d.password := by
        simp only [UserRegistrationSerializer.validate_password] at hv
        repeat' split at hv
        all_goals simp_all
      rw [hv] at hok
      subst hvp
      have hstrong : strongPassword d.password := (validate_password_ok_iff d.password).mp hv
      refine ⟨hstrong, ?_⟩
      split_ifs at hok with hu hch hem hpw <;>
        first
          | simpa using hpw
          | cases hok
  refine ⟨main, ?_⟩
  intro eu ee d hnc u hok
  exact hnc (main eu ee d u hok)

/-- C10 (witness): a concrete registration with a policy-satisfying password
goes through, and the theorem extracts the policy facts from it. -/
theorem registration_password_policy_witness :
    strongPassword "Passw0rd" ∧ ("Passw0rd" : String) = "Passw0rd" :=
  registration_password_policy.1 [] []
    { username := "bob", password := "Passw0rd", password_confirm := "Passw0rd" }
    ⟨"bob", none, "", "", none⟩ (by decide)

end TodoTracker
